import Mathlib

/-!
Verification of the Slack trivia adapter (`trivia_slack.py`) against its
natural-language specification.  The adapter's pure logic — the event
router, the question formatter, the send-retry loop, the reaction/error
handlers and the display-name cache — is embedded shallowly below;
each claim of the specification is then stated and settled as a theorem.
-/

namespace TriviaSlack

/-- The constant `NAME_CACHE_SECONDS = 12 * 60 * 60`, the display-name cache TTL. -/
def NAME_CACHE_SECONDS : Nat := 12 * 60 * 60

/-! ## Event router (`handle_message`, lines 161-176)

An inbound RTM event is a dict; the router reads `type`, `subtype`,
`thread_ts`, `channel`, `user` and `text`.  `subtype` and `thread_ts`
only matter through key presence, so they are booleans here. -/

structure InboundEvent where
  type : String
  user : String
  text : String
  channel : String
  hasSubtype : Bool
  hasThreadTs : Bool
deriving DecidableEq, Repr

/-- The configuration keys the router reads: `trivia_channel` and
`trivia_core.admin_uid`. -/
structure RouterConfig where
  trivia_channel : String
  admin_uid : String
deriving DecidableEq, Repr

/-- The arguments of the single call `self._trivia.handle_message(uid=...,
text=..., message_payload=...)`. -/
structure EngineCall where
  uid : String
  text : String
  message_payload : InboundEvent
deriving DecidableEq, Repr

/-- The router's drop condition, literally the `if` of lines 163-169. -/
def dropCond (cfg : RouterConfig) (event : InboundEvent) : Bool :=
  event.type != "message"
    || event.hasSubtype
    || event.hasThreadTs
    || (event.channel != cfg.trivia_channel && event.user != cfg.admin_uid)

/-- The router `handle_message` (lines 161-176): drop (return `none`) when the drop
condition holds, otherwise forward `(uid, text, payload)` to the engine. -/
def handle_message (cfg : RouterConfig) (event : InboundEvent) :
    Option EngineCall :=
  if dropCond cfg event then none
  else some ⟨event.user, event.text, event⟩

theorem dropCond_false_iff (cfg : RouterConfig) (e : InboundEvent) :
    dropCond cfg e = false ↔
      (e.type = "message" ∧ e.hasSubtype = false ∧ e.hasThreadTs = false ∧
        (e.channel = cfg.trivia_channel ∨ e.user = cfg.admin_uid)) := by
  simp [dropCond, not_and_or]
  tauto

/-- C1: the router forwards `(uid = event.user, text = event.text,
payload = event)` to the engine iff the event type is `"message"`, there is
no `subtype` key, no `thread_ts` key, and the channel is the trivia channel
or the user is the admin; in every other case the event is dropped
(`none`), and nothing else is ever forwarded. -/
theorem router_filter_correct (cfg : RouterConfig) (e : InboundEvent) :
    (handle_message cfg e = some ⟨e.user, e.text, e⟩ ↔
      (e.type = "message" ∧ e.hasSubtype = false ∧ e.hasThreadTs = false ∧
        (e.channel = cfg.trivia_channel ∨ e.user = cfg.admin_uid))) ∧
    (handle_message cfg e = none ∨
      handle_message cfg e = some ⟨e.user, e.text, e⟩) := by
  constructor
  · rw [← dropCond_false_iff cfg e]
    unfold handle_message
    rcases h : dropCond cfg e with _ | _ <;> simp [h]
  · unfold handle_message
    rcases h : dropCond cfg e with _ | _ <;> simp [h]

/-! ## Question formatting (`format_question`, lines 35-55)

A question record has fields `winning_user` (read with `.get`, so absence is
`none`), `winning_answer`, `year`, `category`, `value`, `question` (all read
by subscript and assumed present) and `comment` (read by subscript: the key
may be absent — modelled by the outer `Option` — and its value may be
`None` — the inner `Option` — or a string).  The winning-user sub-record has
`uid` (read with `.get('uid','')`), `score` and `rank`. -/

structure WinningUser where
  uid : Option String
  score : Nat
  rank : Nat
deriving DecidableEq, Repr

structure Question where
  winning_user : Option WinningUser
  winning_answer : String
  year : Nat
  category : String
  value : Nat
  comment : Option (Option String)
  question : String
deriving DecidableEq, Repr

/-- Python truthiness of the value found at the `comment` key: `None` and
`''` are falsy, any other string truthy. -/
def pyTruthyStrOpt : Option String → Bool
  | none => false
  | some s => s != ""

/-- Decimal digits of `n`, most significant first.  Fuel-driven so that it
reduces inside the kernel (`n + 1` fuel always suffices). -/
def natDigitsGo : Nat → Nat → List Char → List Char
  | 0, _, acc => acc
  | fuel + 1, n, acc =>
    if n < 10 then Nat.digitChar n :: acc
    else natDigitsGo fuel (n / 10) (Nat.digitChar (n % 10) :: acc)

/-- The decimal rendering of a nonnegative int, as Python `str`/f-strings
produce it. -/
def natRepr (n : Nat) : String :=
  String.mk (natDigitsGo (n + 1) n [])

/-- Thousands grouping of a digit list given least-significant first, as
the Python format spec `,` does for a nonnegative int. -/
def groupThrees : List Char → List Char
  | [] => []
  | [a] => [a]
  | [a, b] => [a, b]
  | [a, b, c] => [a, b, c]
  | a :: b :: c :: d :: rest => a :: b :: c :: ',' :: groupThrees (d :: rest)

/-- Python comma formatting of a nonnegative int: decimal digits with a comma every
three digits from the right. -/
def commaFormat (n : Nat) : String :=
  String.mk (groupThrees (natRepr n).data.reverse).reverse

/-- Line 1 (lines 40-46): `Correct: *answer* -- name (today: score #rank)`
when a winning user is present, else `Answer: *answer*`.  `resolve` stands
for `self.get_display_name`. -/
def fq_line1 (resolve : String → String) (q : Question) : String :=
  match q.winning_user with
  | some user =>
    let username := resolve (user.uid.getD "")
    let score := commaFormat user.score
    let rank := natRepr user.rank
    "Correct: *" ++ q.winning_answer ++ "* " ++
      "-- " ++ username ++ " (today: " ++ score ++ " #" ++ rank ++ ")"
  | none => "Answer: *" ++ q.winning_answer ++ "*"

/-- The unconditional part of line 2 (lines 48-49):
`(year) *category* for *value*`. -/
def fq_line2_base (q : Question) : String :=
  "(" ++ natRepr q.year ++ ") *" ++ q.category ++ "* " ++
    "for *" ++ natRepr q.value ++ "*"

/-- Line 2 (lines 48-51).  `question['comment']` is a subscript access, so
an absent key fails (`none`); a present value gets the ` _comment_` suffix
exactly when it is truthy. -/
def fq_line2 (q : Question) : Option String :=
  match q.comment with
  | none => none
  | some c =>
    some (if pyTruthyStrOpt c
          then fq_line2_base q ++ " _" ++ c.getD "" ++ "_"
          else fq_line2_base q)

/-- Line 3 (line 53): the question text block-quoted. -/
def fq_line3 (q : Question) : String := ">" ++ q.question

/-- The formatter `format_question` (lines 35-55): the three lines joined by newlines;
`none` when the `comment` subscript access fails. -/
def format_question (resolve : String → String) (q : Question) :
    Option String :=
  (fq_line2 q).map (fun line2 =>
    fq_line1 resolve q ++ "\n" ++ line2 ++ "\n" ++ fq_line3 q)

/-- The section-4.4 example record. -/
def exampleQuestion : Question :=
  { winning_user := some { uid := some "U1", score := 1234, rank := 2 }
    winning_answer := "Paris"
    year := 1998
    category := "Geography"
    value := 400
    comment := some (some "tricky")
    question := "Capital of France?" }

/-- The display-name resolution assumed by the example: `"U1"` resolves to
`"Alice"`. -/
def aliceResolve : String → String :=
  fun uid => if uid = "U1" then "Alice" else "(no user)"

/-- C2: on the example record the formatter produces exactly the specified
three-line string, with the score rendered with thousands separators; and
with `winning_user` absent, line 1 is exactly `Answer: *Paris*`. -/
theorem format_question_example :
    format_question aliceResolve exampleQuestion =
      some ("Correct: *Paris* -- Alice (today: 1,234 #2)\n" ++
        "(1998) *Geography* for *400* _tricky_\n" ++
        ">Capital of France?") ∧
    format_question aliceResolve { exampleQuestion with winning_user := none } =
      some ("Answer: *Paris*\n" ++
        "(1998) *Geography* for *400* _tricky_\n" ++
        ">Capital of France?") := by
  constructor <;> decide

/-- C3 counterexample: on the example record with the `comment` key absent
— a record conforming to the section-4.4 field list, where `comment` is
optional — `format_question` fails (the `question['comment']` subscript
access raises `KeyError`), contradicting the claim that it succeeds on
every such record. -/
theorem format_question_comment_absent_fails :
    format_question aliceResolve { exampleQuestion with comment := none }
      = none := by
  decide

/-- C3 (amended): whenever the `comment` key is present — its value possibly
`None` or the empty string — `format_question` succeeds; the ` _comment_`
suffix is appended to line 2 exactly when the value is non-null and
non-empty, and for a `None` or empty value line 2 is exactly
`(year) *category* for *value*`; when the `comment` key is absent,
`format_question` fails with a `KeyError`. -/
theorem format_question_comment_handling (resolve : String → String)
    (q : Question) :
    ((format_question resolve q).isSome ↔ q.comment.isSome) ∧
    (∀ c, q.comment = some c →
      format_question resolve q =
        some (fq_line1 resolve q ++ "\n" ++
          (if pyTruthyStrOpt c
           then fq_line2_base q ++ " _" ++ c.getD "" ++ "_"
           else fq_line2_base q) ++ "\n" ++ fq_line3 q)) ∧
    (∀ c, q.comment = some c → pyTruthyStrOpt c = false →
      fq_line2 q = some (fq_line2_base q)) := by
  refine ⟨?_, ?_, ?_⟩
  · unfold format_question fq_line2
    rcases h : q.comment with _ | c <;> simp [h]
  · intro c hc
    unfold format_question fq_line2
    rw [hc]
    simp
  · intro c hc hfalse
    unfold fq_line2
    rw [hc]
    simp [hfalse]

/-- Witness for C3's amended theorem at the concrete example records with a
truthy, an empty and a null comment value. -/
theorem format_question_comment_handling_witness :
    (format_question aliceResolve
        { exampleQuestion with comment := some none } =
      some (fq_line1 aliceResolve exampleQuestion ++ "\n" ++
        fq_line2_base exampleQuestion ++ "\n" ++
        fq_line3 exampleQuestion)) ∧
    (fq_line2 { exampleQuestion with comment := some (some "") } =
      some (fq_line2_base exampleQuestion)) := by
  constructor
  · exact (format_question_comment_handling aliceResolve
      { exampleQuestion with comment := some none }).2.1 none rfl
  · exact (format_question_comment_handling aliceResolve
      { exampleQuestion with comment := some (some "") }).2.2
      (some "") rfl (by decide)

/-! ## Send retry loop (`post_message`, lines 57-71)

`post_message` loops `tries` from 0 while `tries < max(max_tries, 1)`,
incrementing `tries`, attempting the platform send, returning its result on
success and logging/sleeping on exception.  The platform is modelled by a
`transport` function from the attempt number (1-based) to `some result` or
`none` (an exception).  The model returns the final value (`none` when all
attempts failed, matching the Python fall-off-the-loop `None`) together
with the number of attempts made. -/

def post_message_go {ρ : Type} (transport : Nat → Option ρ)
    (bound : Nat) (tries : Nat) : Option ρ × Nat :=
  if tries < bound then
    match transport (tries + 1) with
    | some r => (some r, tries + 1)
    | none => post_message_go transport bound (tries + 1)
  else (none, tries)
termination_by bound - tries

/-- The send `post_message` (lines 57-71): loop bound `max(self._config['max_tries'],
1)` with `max_tries` an arbitrary integer, starting from `tries = 0`. -/
def post_message {ρ : Type} (max_tries : Int) (transport : Nat → Option ρ) :
    Option ρ × Nat :=
  post_message_go transport (max max_tries 1).toNat 0

theorem post_message_go_all_fail {ρ : Type} (transport : Nat → Option ρ)
    (hfail : ∀ n, transport n = none) (bound : Nat) :
    ∀ tries, tries ≤ bound →
      post_message_go transport bound tries = (none, bound) := by
  have key : ∀ m tries, bound - tries = m → tries ≤ bound →
      post_message_go transport bound tries = (none, bound) := by
    intro m
    induction m with
    | zero =>
      intro tries hm h
      unfold post_message_go
      have hnlt : ¬ tries < bound := by omega
      simp [hnlt]
      omega
    | succ m ih =>
      intro tries hm h
      unfold post_message_go
      have hlt : tries < bound := by omega
      simp [hlt, hfail]
      exact ih (tries + 1) (by omega) (by omega)
  exact fun tries h => key (bound - tries) tries rfl h

theorem post_message_go_first_success {ρ : Type} (transport : Nat → Option ρ)
    (bound k : Nat) (r : ρ) (hkb : k ≤ bound)
    (hfail : ∀ j, 1 ≤ j → j < k → transport j = none)
    (hs : transport k = some r) :
    ∀ tries, tries < k →
      post_message_go transport bound tries = (some r, k) := by
  have key : ∀ m tries, k - tries = m → tries < k →
      post_message_go transport bound tries = (some r, k) := by
    intro m
    induction m with
    | zero =>
      intro tries hm h
      exact absurd h (by omega)
    | succ m ih =>
      intro tries hm h
      unfold post_message_go
      have hlt : tries < bound := by omega
      by_cases hk : tries + 1 = k
      · subst hk
        simp [hlt, hs]
      · have hnone : transport (tries + 1) = none :=
          hfail (tries + 1) (by omega) (by omega)
        simp [hlt, hnone]
        exact ih (tries + 1) (by omega) (by omega)
  exact fun tries h => key (k - tries) tries rfl h

/-- C4: with the loop bound `max(max_tries, 1)` — which equals the
configured `max_tries` bounded below by 1 — a permanently failing transport
is attempted exactly `max(max_tries, 1)` times and no result is returned
(the failure is swallowed, no error escapes); and whenever attempt `k` is
the first successful one (every earlier attempt failed) and `k` is within
the bound, the call returns that attempt's result immediately, having made
exactly `k` attempts and no more. -/
theorem post_message_retry_policy {ρ : Type} (max_tries : Int) :
    (((max max_tries 1).toNat : Int) = max max_tries 1) ∧
    (∀ transport : Nat → Option ρ, (∀ n, transport n = none) →
      post_message max_tries transport = (none, (max max_tries 1).toNat)) ∧
    (∀ (transport : Nat → Option ρ) (r : ρ) (k : Nat),
      1 ≤ k → k ≤ (max max_tries 1).toNat →
      (∀ j, 1 ≤ j → j < k → transport j = none) →
      transport k = some r →
      post_message max_tries transport = (some r, k)) := by
  refine ⟨?_, ?_, ?_⟩
  · have : (1 : Int) ≤ max max_tries 1 := le_max_right _ _
    omega
  · intro transport hfail
    exact post_message_go_all_fail transport hfail _ 0 (Nat.zero_le _)
  · intro transport r k hk1 hkb hfail hs
    exact post_message_go_first_success transport _ k r hkb hfail hs 0
      (by omega)

/-- Witness for C4 at `max_tries = 3`: the always-failing transport is
attempted exactly 3 times with no result; a transport failing on attempts
1 and 2 and succeeding on attempt 3 yields that result after exactly 3
attempts; and a transport succeeding immediately is attempted once. -/
theorem post_message_retry_policy_witness :
    post_message 3 (fun _ => (none : Option Nat)) = (none, 3) ∧
    post_message 3 (fun n => if n = 3 then some 42 else (none : Option Nat)) =
      (some 42, 3) ∧
    post_message 3 (fun _ => (some 7 : Option Nat)) = (some 7, 1) := by
  refine ⟨?_, ?_, ?_⟩
  · exact ((post_message_retry_policy (ρ := Nat) 3).2.1
      (fun _ => none) (fun _ => rfl))
  · exact ((post_message_retry_policy (ρ := Nat) 3).2.2
      (fun n => if n = 3 then some 42 else none) 42 3 (by omega) (by decide)
      (fun j h1 h2 => by
        show (if j = 3 then some (42 : Nat) else none) = none
        rw [if_neg (by omega : ¬ j = 3)]) rfl)
  · exact ((post_message_retry_policy (ρ := Nat) 3).2.2
      (fun _ => some 7) 7 1 (by omega) (by decide)
      (fun j h1 h2 => absurd h2 (by omega)) rfl)

/-! ## Reaction and error handlers (`correct_answer` lines 150-159,
`error` lines 178-193)

The fields of an original event payload that these handlers read. -/

structure MessagePayload where
  user : String
  ts : String
  channel : String
deriving DecidableEq, Repr

/-- A `reactions_add(channel, name, timestamp)` platform call. -/
structure ReactionCall where
  channel : String
  name : String
  timestamp : String
deriving DecidableEq, Repr

/-- A `chat_postEphemeral(channel, user, text)` platform call. -/
structure EphemeralCall where
  channel : String
  user : String
  text : String
deriving DecidableEq, Repr

/-- The platform request/response calls these handlers can make. -/
inductive PlatformCall where
  | reaction : ReactionCall → PlatformCall
  | ephemeral : EphemeralCall → PlatformCall
deriving DecidableEq, Repr

/-- The handler `correct_answer` (lines 150-159): one `reactions_add` with
`channel = self._config['trivia_channel']`, `name = 'white_check_mark'`,
`timestamp = message_payload['ts']`, inside a `try/except Exception` that
logs the exception.  Returns the handler's outcome (always `ok`, since any
exception is caught) and the list of platform calls made. -/
def correct_answer (trivia_channel : String) (message_payload : MessagePayload)
    (platform : PlatformCall → Except String Unit) :
    Except String Unit × List PlatformCall :=
  let call : ReactionCall :=
    { channel := trivia_channel
      name := "white_check_mark"
      timestamp := message_payload.ts }
  match platform (.reaction call) with
  | .ok _ => (.ok (), [.reaction call])
  | .error _ => (.ok (), [.reaction call])

/-- The handler `error` (lines 178-193): a `reactions_add` with the payload's channel,
name `'x'` and the payload's `ts`, then a `chat_postEphemeral` to the
payload's channel and user with the error text — with no `try/except`, so
the first platform failure propagates to the caller. -/
def error_handler (message_payload : MessagePayload) (text : String)
    (platform : PlatformCall → Except String Unit) :
    Except String Unit × List PlatformCall :=
  let user := message_payload.user
  let ts := message_payload.ts
  let channel := message_payload.channel
  let c1 : PlatformCall := .reaction { channel := channel, name := "x", timestamp := ts }
  match platform c1 with
  | .error e => (.error e, [c1])
  | .ok _ =>
    let c2 : PlatformCall := .ephemeral { channel := channel, user := user, text := text }
    match platform c2 with
    | .error e => (.error e, [c1, c2])
    | .ok _ => (.ok (), [c1, c2])

/-- C5 counterexample: with trivia channel `"C_TRIVIA"` and a payload whose
channel is `"C_OTHER"`, `correct_answer` adds the reaction on `"C_TRIVIA"`
— the configured trivia channel — and not on the payload's channel, so the
reaction is not keyed by the channel taken from the payload. -/
theorem correct_answer_channel_counterexample :
    (correct_answer "C_TRIVIA" ⟨"U2", "123.45", "C_OTHER"⟩
        (fun _ => .ok ())).2 =
      [.reaction ⟨"C_TRIVIA", "white_check_mark", "123.45"⟩] ∧
    ("C_TRIVIA" : String) ≠
      (⟨"U2", "123.45", "C_OTHER"⟩ : MessagePayload).channel := by
  constructor
  · rfl
  · decide

/-- C5 (amended): on every invocation, `correct_answer` makes exactly one
platform call — adding the affirmative (`white_check_mark`) reaction keyed
by the payload's timestamp and the *configured trivia channel* (not the
payload's channel) — and any platform error raised by that call is logged
and swallowed: the handler's outcome is `ok` for every platform behavior. -/
theorem correct_answer_behavior (trivia_channel : String)
    (p : MessagePayload) (platform : PlatformCall → Except String Unit) :
    (correct_answer trivia_channel p platform).2 =
      [.reaction ⟨trivia_channel, "white_check_mark", p.ts⟩] ∧
    (correct_answer trivia_channel p platform).1 = .ok () := by
  unfold correct_answer
  dsimp only
  rcases h : platform (.reaction ⟨trivia_channel, "white_check_mark", p.ts⟩)
    with _ | _ <;> simp [h]

/-- C6: `error` adds a negative (`'x'`) reaction keyed by the payload's
channel and timestamp and sends an ephemeral message with the error text to
the payload's channel addressed to the payload's user; when both platform
calls succeed the handler succeeds, and — unlike `correct_answer`, which
swallows every platform error — a platform failure in either call makes the
handler itself fail with that error (it propagates to the caller). -/
theorem error_handler_behavior (p : MessagePayload) (text : String)
    (platform : PlatformCall → Except String Unit) :
    (platform (.reaction ⟨p.channel, "x", p.ts⟩) = .ok () →
      platform (.ephemeral ⟨p.channel, p.user, text⟩) = .ok () →
      error_handler p text platform =
        (.ok (), [.reaction ⟨p.channel, "x", p.ts⟩,
          .ephemeral ⟨p.channel, p.user, text⟩])) ∧
    (∀ e, platform (.reaction ⟨p.channel, "x", p.ts⟩) = .error e →
      (error_handler p text platform).1 = .error e) ∧
    (∀ e, platform (.reaction ⟨p.channel, "x", p.ts⟩) = .ok () →
      platform (.ephemeral ⟨p.channel, p.user, text⟩) = .error e →
      (error_handler p text platform).1 = .error e) ∧
    (∀ platform2 ch, (correct_answer ch p platform2).1 = .ok ()) := by
  refine ⟨?_, ?_, ?_, ?_⟩
  · intro h1 h2
    unfold error_handler
    dsimp only
    rw [h1, h2]
  · intro e h1
    unfold error_handler
    dsimp only
    rw [h1]
  · intro e h1 h2
    unfold error_handler
    dsimp only
    rw [h1, h2]
  · intro platform2 ch
    exact (correct_answer_behavior ch p platform2).2

/-- Witness for C6 at a concrete payload, text and platform: with an
always-failing platform the handler fails with the platform's error, and
with an always-succeeding platform it succeeds having made exactly the
reaction and the ephemeral call. -/
theorem error_handler_behavior_witness :
    (error_handler ⟨"U2", "9.9", "C1"⟩ "bad answer"
        (fun _ => .error "boom")).1 = .error "boom" ∧
    error_handler ⟨"U2", "9.9", "C1"⟩ "bad answer" (fun _ => .ok ()) =
      (.ok (), [.reaction ⟨"C1", "x", "9.9"⟩,
        .ephemeral ⟨"C1", "U2", "bad answer"⟩]) := by
  constructor
  · exact (error_handler_behavior ⟨"U2", "9.9", "C1"⟩ "bad answer"
      (fun _ => .error "boom")).2.1 "boom" rfl
  · exact (error_handler_behavior ⟨"U2", "9.9", "C1"⟩ "bad answer"
      (fun _ => .ok ())).1 rfl rfl

/-! ## Display-name cache (`get_display_name`, lines 73-106)

The cache maps a uid to `(name, fetched_at)`; a missing entry reads as
`('???', 0)`.  A `users_info` profile may have each preferred field absent
(outer `none`), present-but-`None` (inner `none`) or a string; the lookup
itself may raise `SlackApiError` (modelled `none`).  `now` stands for
`time.time()` (both reads of the clock inside one call are the same
instant).  The result carries the returned name, the updated cache, and how
many platform lookups the call performed. -/

structure Profile where
  display_name_normalized : Option (Option String)
  real_name_normalized : Option (Option String)
deriving DecidableEq, Repr

/-- The per-field test of lines 93-95: the key is present, its value is not
`None` and not the empty string. -/
def fieldUsable : Option (Option String) → Bool
  | some (some s) => s != ""
  | _ => false

/-- The name-priority loop of lines 92-97: first usable
field of `['display_name_normalized', 'real_name_normalized']`, else the
`name = None` set at line 86 stands. -/
def pickName (user : Profile) : Option String :=
  if fieldUsable user.display_name_normalized then
    user.display_name_normalized.getD none
  else if fieldUsable user.real_name_normalized then
    user.real_name_normalized.getD none
  else none

structure GdnResult where
  name : String
  cache : String → Option (String × Nat)
  lookups : Nat

/-- The resolver `get_display_name` (lines 73-106).  Line 77 reads the cache with
default `('???', 0)`; line 79 refreshes when `now > name_time +
NAME_CACHE_SECONDS`, performing one platform lookup whose `SlackApiError`
is passed over (name stays `None`); line 102 substitutes `'(no user)'` for
a falsy name; line 105 always rewrites the cache entry with the final name
and the current time. -/
def get_display_name (cache : String → Option (String × Nat)) (now : Nat)
    (lookup : Option Profile) (uid : String) : GdnResult :=
  let entry := (cache uid).getD ("???", 0)
  let refreshed : Option String × Nat :=
    if entry.2 + NAME_CACHE_SECONDS < now then
      (match lookup with
       | some user => pickName user
       | none => none,
       1)
    else (some entry.1, 0)
  let name :=
    match refreshed.1 with
    | some s => if s = "" then "(no user)" else s
    | none => "(no user)"
  { name := name
    cache := fun u => if u = uid then some (name, now) else cache u
    lookups := refreshed.2 }

theorem gdn_cache_rewrite (cache : String → Option (String × Nat))
    (now : Nat) (lookup : Option Profile) (uid : String) :
    (get_display_name cache now lookup uid).cache uid =
      some ((get_display_name cache now lookup uid).name, now) := by
  unfold get_display_name
  simp

theorem gdn_name_ne_empty (cache : String → Option (String × Nat))
    (now : Nat) (lookup : Option Profile) (uid : String) :
    (get_display_name cache now lookup uid).name ≠ "" := by
  unfold get_display_name
  dsimp only
  split
  · split
    · decide
    · assumption
  · decide

theorem gdn_fresh_entry (cache : String → Option (String × Nat))
    (now : Nat) (lookup : Option Profile) (uid : String) (n : String)
    (t : Nat) (hc : cache uid = some (n, t))
    (hfresh : now ≤ t + NAME_CACHE_SECONDS) :
    (get_display_name cache now lookup uid).lookups = 0 ∧
    (get_display_name cache now lookup uid).name =
      (if n = "" then "(no user)" else n) := by
  unfold get_display_name
  have hnotlt : ¬ (t + NAME_CACHE_SECONDS < now) := by omega
  simp [hc, hnotlt]

theorem gdn_stale_entry (cache : String → Option (String × Nat))
    (now : Nat) (lookup : Option Profile) (uid : String)
    (hstale : ((cache uid).getD ("???", 0)).2 + NAME_CACHE_SECONDS < now) :
    (get_display_name cache now lookup uid).lookups = 1 ∧
    (get_display_name cache now lookup uid).name =
      (match (match lookup with
              | some user => pickName user
              | none => none) with
       | some s => if s = "" then "(no user)" else s
       | none => "(no user)") := by
  unfold get_display_name
  simp [hstale]

/-- C7: calling `get_display_name` for `uid` a second time within the TTL
window of the first call performs no platform lookup and returns the name
the first call returned; calling it after the first call's cache timestamp
has aged past the TTL performs exactly one new platform lookup. -/
theorem gdn_ttl_policy (cache : String → Option (String × Nat))
    (now1 now2 : Nat) (lookup1 lookup2 : Option Profile) (uid : String) :
    (now2 ≤ now1 + NAME_CACHE_SECONDS →
      (get_display_name (get_display_name cache now1 lookup1 uid).cache
          now2 lookup2 uid).lookups = 0 ∧
      (get_display_name (get_display_name cache now1 lookup1 uid).cache
          now2 lookup2 uid).name =
        (get_display_name cache now1 lookup1 uid).name) ∧
    (now1 + NAME_CACHE_SECONDS < now2 →
      (get_display_name (get_display_name cache now1 lookup1 uid).cache
          now2 lookup2 uid).lookups = 1) := by
  constructor
  · intro hfresh
    have hc := gdn_cache_rewrite cache now1 lookup1 uid
    have hne := gdn_name_ne_empty cache now1 lookup1 uid
    have h := gdn_fresh_entry (get_display_name cache now1 lookup1 uid).cache
      now2 lookup2 uid (get_display_name cache now1 lookup1 uid).name now1
      hc hfresh
    refine ⟨h.1, ?_⟩
    rw [h.2, if_neg hne]
  · intro hstale
    have hc := gdn_cache_rewrite cache now1 lookup1 uid
    refine (gdn_stale_entry (get_display_name cache now1 lookup1 uid).cache
      now2 lookup2 uid ?_).1
    rw [hc]
    simpa using hstale

/-- Witness for C7 with a first call at time 100000 on an empty cache (the
lookup finds display name `"Alice"`): a second call at `100000 + TTL`
performs no lookup and returns `"Alice"` again, and a second call one
second later performs exactly one lookup. -/
theorem gdn_ttl_policy_witness :
    (get_display_name
        (get_display_name (fun _ => none) 100000
          (some ⟨some (some "Alice"), none⟩) "U1").cache
        (100000 + NAME_CACHE_SECONDS)
        (some ⟨some (some "Alice"), none⟩) "U1").lookups = 0 ∧
    (get_display_name
        (get_display_name (fun _ => none) 100000
          (some ⟨some (some "Alice"), none⟩) "U1").cache
        (100000 + NAME_CACHE_SECONDS)
        (some ⟨some (some "Alice"), none⟩) "U1").name =
      (get_display_name (fun _ => none) 100000
        (some ⟨some (some "Alice"), none⟩) "U1").name ∧
    (get_display_name
        (get_display_name (fun _ => none) 100000
          (some ⟨some (some "Alice"), none⟩) "U1").cache
        (100000 + NAME_CACHE_SECONDS + 1)
        (some ⟨some (some "Alice"), none⟩) "U1").lookups = 1 := by
  refine ⟨?_, ?_, ?_⟩
  · exact ((gdn_ttl_policy (fun _ => none) 100000 (100000 + NAME_CACHE_SECONDS)
      (some ⟨some (some "Alice"), none⟩) (some ⟨some (some "Alice"), none⟩)
      "U1").1 (le_refl _)).1
  · exact ((gdn_ttl_policy (fun _ => none) 100000 (100000 + NAME_CACHE_SECONDS)
      (some ⟨some (some "Alice"), none⟩) (some ⟨some (some "Alice"), none⟩)
      "U1").1 (le_refl _)).2
  · exact (gdn_ttl_policy (fun _ => none) 100000 (100000 + NAME_CACHE_SECONDS + 1)
      (some ⟨some (some "Alice"), none⟩) (some ⟨some (some "Alice"), none⟩)
      "U1").2 (by omega)

/-- C8: when a stale (or absent) cache entry forces a platform lookup and
that lookup fails with `SlackApiError` (`lookup = none`), `get_display_name`
still rewrites the cache entry for `uid` with the current timestamp, so any
immediately repeated call (within the TTL) performs no new lookup; and it
returns `"(no user)"` — in particular when no prior cached name existed
(`cache uid = none`, covered since the conclusion is unconditional). -/
theorem gdn_failed_lookup_refreshes (cache : String → Option (String × Nat))
    (now : Nat) (uid : String)
    (hstale : ((cache uid).getD ("???", 0)).2 + NAME_CACHE_SECONDS < now) :
    (get_display_name cache now none uid).name = "(no user)" ∧
    (get_display_name cache now none uid).cache uid =
      some ("(no user)", now) ∧
    (∀ (lookup2 : Option Profile) (now2 : Nat),
      now2 ≤ now + NAME_CACHE_SECONDS →
      (get_display_name (get_display_name cache now none uid).cache
          now2 lookup2 uid).lookups = 0) := by
  have hname : (get_display_name cache now none uid).name = "(no user)" :=
    (gdn_stale_entry cache now none uid hstale).2
  refine ⟨hname, ?_, ?_⟩
  · rw [gdn_cache_rewrite, hname]
  · intro lookup2 now2 h2
    refine (gdn_fresh_entry (get_display_name cache now none uid).cache now2
      lookup2 uid (get_display_name cache now none uid).name now ?_ h2).1
    exact gdn_cache_rewrite cache now none uid

/-- Witness for C8: empty cache, failing lookup at time
`NAME_CACHE_SECONDS + 1`: the call returns `"(no user)"`, caches it with
the current timestamp, and an immediately repeated call (same instant, any
lookup behavior) performs no lookup. -/
theorem gdn_failed_lookup_refreshes_witness :
    (get_display_name (fun _ => none) (NAME_CACHE_SECONDS + 1) none "U1").name
      = "(no user)" ∧
    (get_display_name (fun _ => none) (NAME_CACHE_SECONDS + 1) none "U1").cache
      "U1" = some ("(no user)", NAME_CACHE_SECONDS + 1) ∧
    (get_display_name
        (get_display_name (fun _ => none) (NAME_CACHE_SECONDS + 1) none
          "U1").cache
        (NAME_CACHE_SECONDS + 1)
        (some ⟨some (some "Alice"), none⟩) "U1").lookups = 0 := by
  have h := gdn_failed_lookup_refreshes (fun _ => none)
    (NAME_CACHE_SECONDS + 1) "U1" (by simp)
  exact ⟨h.1, h.2.1,
    h.2.2 (some ⟨some (some "Alice"), none⟩) (NAME_CACHE_SECONDS + 1)
      (by omega)⟩

/-- C9: every call to `get_display_name` — including one served entirely
from a fresh cache entry — rewrites the cache entry for `uid` with the
returned name and the current time; and any call made while the existing
entry is at most TTL old performs no platform lookup, so a uid resolved at
least once every 12 hours is never re-fetched. -/
theorem gdn_rewrite_invariant (cache : String → Option (String × Nat))
    (now : Nat) (lookup : Option Profile) (uid : String) :
    (get_display_name cache now lookup uid).cache uid =
      some ((get_display_name cache now lookup uid).name, now) ∧
    (∀ n t, cache uid = some (n, t) → now ≤ t + NAME_CACHE_SECONDS →
      (get_display_name cache now lookup uid).lookups = 0) := by
  refine ⟨gdn_cache_rewrite cache now lookup uid, ?_⟩
  intro n t hc hfresh
  exact (gdn_fresh_entry cache now lookup uid n t hc hfresh).1

/-- Witness for C9 at a cache holding `("Bob", 100)` for `"U1"`, read again
at time 100 with a lookup that would find `"Alice"`: the entry is rewritten
to the returned name `"Bob"` with the current time, and no lookup is
performed. -/
theorem gdn_rewrite_invariant_witness :
    (get_display_name (fun u => if u = "U1" then some ("Bob", 100) else none)
        100 (some ⟨some (some "Alice"), none⟩) "U1").cache "U1" =
      some ((get_display_name
        (fun u => if u = "U1" then some ("Bob", 100) else none)
        100 (some ⟨some (some "Alice"), none⟩) "U1").name, 100) ∧
    (get_display_name (fun u => if u = "U1" then some ("Bob", 100) else none)
        100 (some ⟨some (some "Alice"), none⟩) "U1").lookups = 0 := by
  have h := gdn_rewrite_invariant
    (fun u => if u = "U1" then some ("Bob", 100) else none)
    100 (some ⟨some (some "Alice"), none⟩) "U1"
  exact ⟨h.1, h.2 "Bob" 100 (by simp) (by omega)⟩

/-- C10: when the cached entry for `uid` is older than the TTL and the
forced platform lookup fails (`none`) or returns a profile with no usable
preferred name field (`pickName = none`), `get_display_name` returns and
caches the placeholder `"(no user)"`: the stale cached name is discarded,
never reused as a fallback. -/
theorem gdn_stale_name_discarded (cache : String → Option (String × Nat))
    (now : Nat) (uid n : String) (t : Nat) (lookup : Option Profile)
    (hc : cache uid = some (n, t)) (hstale : t + NAME_CACHE_SECONDS < now)
    (hnopick : ∀ p, lookup = some p → pickName p = none) :
    (get_display_name cache now lookup uid).name = "(no user)" ∧
    (get_display_name cache now lookup uid).cache uid =
      some ("(no user)", now) := by
  have hstale' : ((cache uid).getD ("???", 0)).2 + NAME_CACHE_SECONDS < now := by
    rw [hc]
    exact hstale
  have hname : (get_display_name cache now lookup uid).name = "(no user)" := by
    rw [(gdn_stale_entry cache now lookup uid hstale').2]
    rcases hl : lookup with _ | p
    · rfl
    · simp [hnopick p hl]
  exact ⟨hname, by rw [gdn_cache_rewrite, hname]⟩

/-- Witness for C10: a stale entry `("OldName", 0)` for `"U1"` read at time
`NAME_CACHE_SECONDS + 1` with a profile carrying a `None` display name and
an empty real name: the stale `"OldName"` is discarded and `"(no user)"`
returned and cached. -/
theorem gdn_stale_name_discarded_witness :
    (get_display_name (fun u => if u = "U1" then some ("OldName", 0) else none)
        (NAME_CACHE_SECONDS + 1) (some ⟨some none, some (some "")⟩)
        "U1").name = "(no user)" ∧
    (get_display_name (fun u => if u = "U1" then some ("OldName", 0) else none)
        (NAME_CACHE_SECONDS + 1) (some ⟨some none, some (some "")⟩)
        "U1").cache "U1" = some ("(no user)", NAME_CACHE_SECONDS + 1) := by
  exact gdn_stale_name_discarded
    (fun u => if u = "U1" then some ("OldName", 0) else none)
    (NAME_CACHE_SECONDS + 1) "U1" "OldName" 0
    (some ⟨some none, some (some "")⟩) (by simp) (by omega)
    (fun p hp => by cases hp; decide)

end TriviaSlack
